import Mathlib

/- Verification of the irc-state client-side state-synchronization engine.

   Strings are modelled as lists of Unicode scalar values (`List Nat`), so
   `"#foo"` is `[35, 102, 111, 111]`.  Rust `HashMap`s are modelled as
   association lists with unique keys (`Assoc`), Rust `HashSet`s as
   duplicate-free lists (`setInsert` / `setRemove`).  Code paths that panic
   in the source (`panic!`, `assert!`, `.unwrap()`, `.expect(..)`,
   `unimplemented!()`) are modelled by returning `none`; a handler thus has
   type `State → Option State`, and a state is reachable only through
   handler invocations that complete normally.  Logging (`warn!`, `info!`)
   performs no state change and is omitted.  The conditionally compiled
   `validate_state_internal_panic` is a no-op in the non-test configuration
   and is omitted from the handlers; the checker `validate_state_internal`
   itself is embedded below. -/

namespace IrcState

/-- String literals as lists of scalar values. -/
def strN (s : String) : List Nat :=
  s.toList.map Char.toNat

/-- Association-list model of `HashMap` (keys kept unique by `insert`). -/
abbrev Assoc (α β : Type) : Type := List (α × β)

namespace Assoc

/-- Lookup, mirroring `HashMap::get`. -/
def find {α β : Type} [DecidableEq α] : Assoc α β → α → Option β
  | [], _ => none
  | p :: rest, k => if p.1 = k then some p.2 else find rest k

/-- Removal, mirroring `HashMap::remove`. -/
def erase {α β : Type} [DecidableEq α] : Assoc α β → α → Assoc α β
  | [], _ => []
  | p :: rest, k => if p.1 = k then erase rest k else p :: erase rest k

/-- Insertion or overwrite, mirroring `HashMap::insert`. -/
def insert {α β : Type} [DecidableEq α] (m : Assoc α β) (k : α) (v : β) : Assoc α β :=
  (k, v) :: erase m k

/-- `Bool`-valued universal quantifier over the entries of the map. -/
def all {α β : Type} (m : Assoc α β) (p : α × β → Bool) : Bool :=
  List.all m p

end Assoc

/-- Duplicate-free insertion, mirroring `HashSet::insert`. -/
def setInsert {α : Type} [DecidableEq α] (l : List α) (x : α) : List α :=
  if x ∈ l then l else x :: l

/-- Element removal, mirroring `HashSet::remove`. -/
def setRemove {α : Type} [DecidableEq α] (l : List α) (x : α) : List α :=
  l.filter (fun y => decide (y ≠ x))

/-- Modelled from the spec: the external crate's IRC case folding
    (`to_irc_lower`): ASCII letters folded to lowercase, plus the customary
    folding of the scalar values 123, 125, 124, 94 (lbrace, rbrace, pipe,
    caret) to 91, 93, 92, 126 (lbrack, rbrack, backslash, tilde). -/
def irc_lower (c : Nat) : Nat :=
  if 65 ≤ c ∧ c ≤ 90 then c + 32
  else if c = 123 then 91
  else if c = 125 then 93
  else if c = 124 then 92
  else if c = 94 then 126
  else c

/-- `channel_deprefix` from src/irc_identifier.rs: if the string contains
    the scalar 35 (the hash sign), discard everything before its first
    occurrence; otherwise return the string unchanged. -/
def channel_deprefix_ (target : List Nat) : List Nat :=
  if 35 ∈ target then target.dropWhile (fun c => decide (c ≠ 35)) else target

/-- `IrcIdentifier::from_str`: strip the channel-status prefix characters,
    then apply IRC case folding. -/
def IrcIdentifier.from_str (val : List Nat) : List Nat :=
  (channel_deprefix_ val).map irc_lower

/-- `UserId(u64)`: opaque sequential user identifier. -/
structure UserId where
  id : Nat
deriving DecidableEq

/-- `ChannelId(u64)`: opaque sequential channel identifier. -/
structure ChannelId where
  id : Nat
deriving DecidableEq

/-- A `User` entity: id, message prefix (the `nick!user@host` string,
    stored as `prefix_`), and the set of channels it occupies. -/
structure User where
  id : UserId
  prefix_ : List Nat
  channels : List ChannelId
deriving DecidableEq

/-- `User::get_nick`: the prefix text before the first scalar 33 (the
    exclamation mark), or the whole prefix when 33 does not occur. -/
def User.get_nick (u : User) : List Nat :=
  u.prefix_.takeWhile (fun c => decide (c ≠ 33))

/-- Modelled from the spec: the external crate's prefix decomposition
    (`IrcMsgPrefix::nick`), extracting the nick from a `nick!user@host`
    prefix; a prefix without the scalar 33 has no nick component. -/
def prefix_nick (p : List Nat) : Option (List Nat) :=
  if 33 ∈ p then some (p.takeWhile (fun c => decide (c ≠ 33))) else none

/-- Modelled from the spec: the external crate's `IrcMsgPrefix::with_nick`,
    replacing the nick component of a `nick!user@host` prefix; fails on a
    prefix without a nick component (the source unwraps this with
    `expect("Need nicked prefix")`). -/
def with_nick (p : List Nat) (nick : List Nat) : Option (List Nat) :=
  if 33 ∈ p then some (nick ++ p.dropWhile (fun c => decide (c ≠ 33))) else none

/-- `User::set_nick`: rewrite the prefix with the new nick; `none` models
    the `expect` panic on an un-nicked prefix. -/
def User.set_nick (u : User) (nick : List Nat) : Option User :=
  (with_nick u.prefix_ nick).map (fun p => { u with prefix_ := p })

/-- A `Channel` entity: id, display name, topic, member set. -/
structure Channel where
  id : ChannelId
  name : List Nat
  topic : List Nat
  users : List UserId
deriving DecidableEq

/-- `Channel::set_topic`. -/
def Channel.set_topic (ch : Channel) (topic : List Nat) : Channel :=
  { ch with topic := topic }

/-- `ChannelInfo`: the data extracted from a join-success bundle. -/
structure ChannelInfo where
  id : ChannelId
  name : List Nat
  topic : List Nat
deriving DecidableEq

/-- `Channel::from_info`: a channel starts with an empty member set. -/
def Channel.from_info (chan_info : ChannelInfo) : Channel :=
  { id := chan_info.id
    name := chan_info.name
    topic := chan_info.topic
    users := [] }

/-- `JoinSuccess` bundle (correlated join-completed event): channel name,
    optional topic, reported nicks (the nick list is only logged). -/
structure JoinSuccess where
  channel : List Nat
  topic : Option (List Nat)
  nicks : List (List Nat)
deriving DecidableEq

/-- `ChannelInfo::from_join`: a missing topic becomes the empty string. -/
def ChannelInfo.from_join (id : ChannelId) (join : JoinSuccess) : ChannelInfo :=
  { id := id
    name := join.channel
    topic := join.topic.getD [] }

/-- A `WhoRecord`: one occupant line of a roster (WHO) response; carries
    the occupant's nick and its full message prefix. -/
structure WhoRecord where
  nick : List Nat
  prefix_ : List Nat
deriving DecidableEq

/-- `WhoSuccess` bundle: the queried channel plus occupant records. -/
structure WhoSuccess where
  channel : List Nat
  who_records : List WhoRecord
deriving DecidableEq

/-- `User::from_who`: a user created from a roster record starts with an
    empty channel set. -/
def User.from_who (id : UserId) (rec : WhoRecord) : User :=
  { id := id
    prefix_ := rec.prefix_
    channels := [] }

/-- The `State` aggregate from src/lib.rs. -/
structure State where
  user_seq : Nat
  channel_seq : Nat
  self_nick : List Nat
  self_id : UserId
  user_map : Assoc (List Nat) UserId
  users : Assoc UserId User
  channel_map : Assoc (List Nat) ChannelId
  channels : Assoc ChannelId Channel
  generation : Nat
deriving DecidableEq

/-- `State::new`. -/
def State.new : State :=
  { user_seq := 1
    channel_seq := 0
    self_nick := []
    self_id := UserId.mk 0
    user_map := []
    users := []
    channel_map := []
    channels := []
    generation := 0 }

/-- `State::validate_state_internal` (the `cfg(test)` consistency checker),
    as a boolean: symmetric membership in both directions, key/entity id
    agreement, and canonical-index-to-entity name agreement. -/
def validate_state_internal (s : State) : Bool :=
  (s.channels.all fun p =>
    decide (p.1 = p.2.id) &&
    (p.2.users.all fun user_id =>
      match Assoc.find s.users user_id with
      | some user_state => user_state.channels.contains p.1
      | none => false)) &&
  (s.users.all fun p =>
    decide (p.1 = p.2.id) &&
    (p.2.channels.all fun chan_id =>
      match Assoc.find s.channels chan_id with
      | some chan_state => chan_state.users.contains p.1
      | none => false)) &&
  (s.channel_map.all fun p =>
    match Assoc.find s.channels p.2 with
    | some chan_state => decide (p.1 = IrcIdentifier.from_str chan_state.name)
    | none => false) &&
  (s.user_map.all fun p =>
    match Assoc.find s.users p.2 with
    | some user_state => decide (p.1 = IrcIdentifier.from_str user_state.get_nick)
    | none => false)

/-- `State::update_channel`: apply `modfunc` to the channel stored under
    `id`; the returned boolean reports whether the channel was found. -/
def update_channel (s : State) (id : ChannelId) (modfunc : Channel → Channel) :
    State × Bool :=
  match Assoc.find s.channels id with
  | some ch => ({ s with channels := Assoc.insert s.channels id (modfunc ch) }, true)
  | none => (s, false)

/-- `State::update_channel_by_name`: normalize the name, look it up in the
    canonical index, and update the channel it names. -/
def update_channel_by_name (s : State) (name : List Nat) (modfunc : Channel → Channel) :
    State × Bool :=
  let ch_name := IrcIdentifier.from_str name
  match Assoc.find s.channel_map ch_name with
  | some chan_id => update_channel s chan_id modfunc
  | none => (s, false)

/-- `State::get_channel_by_name`.  The outer `none` models the
    `panic!("Inconsistent state")` taken when the index names a channel id
    that is absent from the channel table; `some none` is the ordinary
    not-found result. -/
def get_channel_by_name (s : State) (name : List Nat) :
    Option (Option (ChannelId × Channel)) :=
  match Assoc.find s.channel_map (IrcIdentifier.from_str name) with
  | none => some none
  | some chan_id =>
    match Assoc.find s.channels chan_id with
    | some channel => some (some (chan_id, channel))
    | none => none

/-- `State::insert_user`: add the entity and its index entry; `none`
    models the panics (un-nicked prefix, or either `assert!(...is_none())`
    contract violation on an already-present key). -/
def insert_user (s : State) (user : User) : Option State :=
  let user_id := user.id
  match prefix_nick user.prefix_ with
  | none => none
  | some pn =>
    let nick := IrcIdentifier.from_str pn
    if (Assoc.find s.users user_id).isSome then none
    else if (Assoc.find s.user_map nick).isSome then none
    else some { s with
      users := Assoc.insert s.users user_id user
      user_map := Assoc.insert s.user_map nick user_id }

/-- `State::update_user`: apply `modfunc` to the user stored under `id`,
    re-keying the canonical index when the normalized nick changed.
    `none` models the panics of the un-nicked-prefix unwraps and of a
    panicking `modfunc`. -/
def update_user (s : State) (id : UserId) (modfunc : User → Option User) :
    Option (State × Bool) :=
  match Assoc.find s.users id with
  | none => some (s, false)
  | some u =>
    match prefix_nick u.prefix_ with
    | none => none
    | some pn =>
      let prev_nick := IrcIdentifier.from_str pn
      match modfunc u with
      | none => none
      | some u2 =>
        match prefix_nick u2.prefix_ with
        | none => none
        | some nn =>
          let new_nick := IrcIdentifier.from_str nn
          let s2 := { s with users := Assoc.insert s.users id u2 }
          if prev_nick ≠ new_nick then
            some ({ s2 with
              user_map := Assoc.insert (Assoc.erase s2.user_map prev_nick) new_nick id }, true)
          else
            some (s2, true)

/-- `State::update_user_by_nick`. -/
def update_user_by_nick (s : State) (nick : List Nat) (modfunc : User → Option User) :
    Option (State × Bool) :=
  match Assoc.find s.user_map (IrcIdentifier.from_str nick) with
  | some user_id => update_user s user_id modfunc
  | none => some (s, false)

/-- The edge-detachment loop of `State::remove_channel_by_id`: for every
    member, remove the member from the channel's user set and the channel
    from the member's channel set.  `none` models the `.unwrap()` panics
    on a missing channel or user entity. -/
def detach_channel_users (id : ChannelId) : List UserId → State → Option State
  | [], s => some s
  | user_id :: rest, s =>
    match Assoc.find s.channels id with
    | none => none
    | some ch =>
      let s1 := { s with channels := Assoc.insert s.channels id { ch with users := setRemove ch.users user_id } }
      match Assoc.find s1.users user_id with
      | none => none
      | some u =>
        detach_channel_users id rest
          { s1 with users := Assoc.insert s1.users user_id { u with channels := setRemove u.channels id } }

/-- `State::remove_channel_by_id`: detach every membership edge, then
    delete the entity and its index entry.  Member users are not deleted
    (the cascade call is commented out in the source). -/
def remove_channel_by_id (s : State) (id : ChannelId) : Option (State × Bool) :=
  match Assoc.find s.channels id with
  | none => some (s, false)
  | some chan_state =>
    let chan_name := IrcIdentifier.from_str chan_state.name
    match detach_channel_users id chan_state.users s with
    | none => none
    | some s2 =>
      some ({ s2 with
        channels := Assoc.erase s2.channels id
        channel_map := Assoc.erase s2.channel_map chan_name }, true)

/-- `State::remove_channel_by_name`: `none` models the panics (the
    `assert!` on `remove_channel_by_id` returning false, or a panic inside
    it); `some (s, none)` is the not-found soft result. -/
def remove_channel_by_name (s : State) (name : List Nat) : Option (State × Option ChannelId) :=
  match Assoc.find s.channel_map (IrcIdentifier.from_str name) with
  | some chan_id =>
    match remove_channel_by_id s chan_id with
    | some (s2, true) => some (s2, some chan_id)
    | some (_, false) => none
    | none => none
  | none => some (s, none)

/-- The edge-detachment loop of `State::remove_user_by_id`. -/
def detach_user_channels (id : UserId) : List ChannelId → State → Option State
  | [], s => some s
  | chan_id :: rest, s =>
    match Assoc.find s.channels chan_id with
    | none => none
    | some ch =>
      let s1 := { s with channels := Assoc.insert s.channels chan_id { ch with users := setRemove ch.users id } }
      match Assoc.find s1.users id with
      | none => none
      | some u =>
        detach_user_channels id rest
          { s1 with users := Assoc.insert s1.users id { u with channels := setRemove u.channels chan_id } }

/-- `State::remove_user_by_id`: removing the self-user is a hard failure
    (`panic!("Tried to remove self")`, modelled as `none`); otherwise
    detach every membership edge, then delete the entity and its index
    entry (the `.unwrap()`s on the two removals are modelled by the
    `isSome` guards). -/
def remove_user_by_id (s : State) (id : UserId) : Option (State × Bool) :=
  if s.self_id = id then none
  else
    match Assoc.find s.users id with
    | none => some (s, false)
    | some user_state =>
      match prefix_nick user_state.prefix_ with
      | none => none
      | some pn =>
        let nick := IrcIdentifier.from_str pn
        match detach_user_channels id user_state.channels s with
        | none => none
        | some s2 =>
          if (Assoc.find s2.users id).isSome then
            let s3 := { s2 with users := Assoc.erase s2.users id }
            if (Assoc.find s3.user_map nick).isSome then
              some ({ s3 with user_map := Assoc.erase s3.user_map nick }, true)
            else none
          else none

/-- `State::remove_user_by_nick`: `none` models the
    `panic!("Inconsistent state")` on a false return. -/
def remove_user_by_nick (s : State) (name : List Nat) : Option (State × Option UserId) :=
  match Assoc.find s.user_map (IrcIdentifier.from_str name) with
  | none => some (s, none)
  | some user_id =>
    match remove_user_by_id s user_id with
    | some (s2, true) => some (s2, some user_id)
    | some (_, false) => none
    | none => none

/-- `State::unlink_user_channel`: remove one membership edge.  When the
    edge is the user's last channel the user is removed via
    `remove_user_by_id`; when the edge is the channel's last user the
    channel is removed via `remove_channel_by_id`.  A vacant entry on
    either side is `panic!("Inconsistent state")`, modelled as `none`. -/
def unlink_user_channel (s : State) (uid : UserId) (chid : ChannelId) : Option State :=
  let step1 : Option State :=
    match Assoc.find s.users uid with
    | none => none
    | some u =>
      if u.channels.length = 1 ∧ chid ∈ u.channels then
        (remove_user_by_id s uid).map Prod.fst
      else
        some { s with users := Assoc.insert s.users uid { u with channels := setRemove u.channels chid } }
  match step1 with
  | none => none
  | some s2 =>
    match Assoc.find s2.channels chid with
    | none => none
    | some ch =>
      if ch.users.length = 1 ∧ uid ∈ ch.users then
        (remove_channel_by_id s2 chid).map Prod.fst
      else
        some { s2 with channels := Assoc.insert s2.channels chid { ch with users := setRemove ch.users uid } }

/-- `State::on_other_part`: soft failure (state unchanged) when the
    channel or the user is unknown; otherwise unlink the edge. -/
def on_other_part (s : State) (channel nick : List Nat) : Option State :=
  let channel_name := IrcIdentifier.from_str channel
  let user_nick := IrcIdentifier.from_str nick
  match Assoc.find s.channel_map channel_name, Assoc.find s.user_map user_nick with
  | some chan_id, some user_id => unlink_user_channel s user_id chan_id
  | _, _ => some s

/-- `State::on_self_part`: remove the channel; `assert!` makes an unknown
    channel a hard failure. -/
def on_self_part (s : State) (channel : List Nat) : Option State :=
  match remove_channel_by_name s channel with
  | some (s2, some _) => some s2
  | some (_, none) => none
  | none => none

/-- `State::on_other_quit`: remove the user; `assert!` makes an unknown
    user a hard failure. -/
def on_other_quit (s : State) (nick : List Nat) : Option State :=
  match remove_user_by_nick s nick with
  | some (s2, some _) => some s2
  | some (_, none) => none
  | none => none

/-- `State::on_other_join`: resolve or create the user (creating assigns a
    fresh id from `user_seq`), then add the membership edge both ways; an
    unknown channel is a hard failure (`panic!`). -/
def on_other_join (s : State) (channel nick prefix_raw : List Nat) : Option State :=
  let channel_name := IrcIdentifier.from_str channel
  let user_nick := IrcIdentifier.from_str nick
  match Assoc.find s.channel_map channel_name with
  | none => none
  | some chan_id =>
    let step : Bool × UserId × State :=
      match Assoc.find s.user_map user_nick with
      | some user_id => (false, user_id, s)
      | none => (true, UserId.mk s.user_seq, { s with user_seq := s.user_seq + 1 })
    let s1 : State :=
      if step.1 then
        { step.2.2 with
          users := Assoc.insert step.2.2.users step.2.1
            { id := step.2.1, prefix_ := prefix_raw, channels := [] }
          user_map := Assoc.insert step.2.2.user_map user_nick step.2.1 }
      else step.2.2
    match Assoc.find s1.users step.2.1 with
    | none => none
    | some u =>
      let s2 := { s1 with users := Assoc.insert s1.users step.2.1 { u with channels := setInsert u.channels chan_id } }
      let r := update_channel_by_name s2 channel_name
        (fun ch => { ch with users := setInsert ch.users step.2.1 })
      if r.2 then some r.1 else none

/-- `State::on_self_join`: if the normalized channel name is already
    indexed, skip (idempotent no-op); otherwise create and index the
    channel under a fresh `channel_seq` id. -/
def on_self_join (s : State) (join : JoinSuccess) : State :=
  let channel_name := IrcIdentifier.from_str join.channel
  match Assoc.find s.channel_map channel_name with
  | some _ => s
  | none =>
    let new_chan_id := ChannelId.mk s.channel_seq
    { s with
      channel_seq := s.channel_seq + 1
      channels := Assoc.insert s.channels new_chan_id
        (Channel.from_info (ChannelInfo.from_join new_chan_id join))
      channel_map := Assoc.insert s.channel_map channel_name new_chan_id }

/-- The nick-collection loop of `validate_state_with_who`: `none` models
    the `panic!("Inconsistent state")` on a member id that is absent from
    the user table. -/
def collect_known_nicks (s : State) : List UserId → Option (List (List Nat))
  | [] => some []
  | user_id :: rest =>
    match Assoc.find s.users user_id with
    | some u =>
      match collect_known_nicks s rest with
      | some l => some (u.get_nick :: l)
      | none => none
    | none => none

/-- `State::validate_state_with_who`: a read-only validation probe; the
    symmetric-difference computation only feeds log output and is omitted.
    `none` models the panics of its lookups. -/
def validate_state_with_who (s : State) (who : WhoSuccess) : Option Unit :=
  match get_channel_by_name s (IrcIdentifier.from_str who.channel) with
  | none => none
  | some none => some ()
  | some (some (_, channel)) =>
    match collect_known_nicks s channel.users with
    | some _ => some ()
    | none => none

/-- The record-scanning loop of `State::on_who`: resolve each reported
    nick against the (pre-loop) user index, assigning fresh sequential ids
    to unknown nicks; returns the final `user_seq`, the users to insert,
    and the resolved id list, in record order. -/
def who_collect (user_map : Assoc (List Nat) UserId) (user_seq : Nat) :
    List WhoRecord → Nat × List User × List UserId
  | [] => (user_seq, [], [])
  | rec :: rest =>
    let nick := IrcIdentifier.from_str rec.nick
    match Assoc.find user_map nick with
    | some user_id =>
      let r := who_collect user_map user_seq rest
      (r.1, r.2.1, user_id :: r.2.2)
    | none =>
      let new_user_id := UserId.mk user_seq
      let r := who_collect user_map (user_seq + 1) rest
      (r.1, User.from_who new_user_id rec :: r.2.1, new_user_id :: r.2.2)

/-- The insertion loop of `State::on_who`. -/
def insert_users : List User → State → Option State
  | [], s => some s
  | u :: rest, s =>
    match insert_user s u with
    | some s2 => insert_users rest s2
    | none => none

/-- The linking loop of `State::on_who`: add the channel to each resolved
    user's channel set; a missing user entity is a panic unless it is the
    self-user, which is silently skipped. -/
def who_link (self_id : UserId) (chid : ChannelId) : List UserId → State → Option State
  | [], s => some s
  | user_id :: rest, s =>
    match Assoc.find s.users user_id with
    | some user_state =>
      who_link self_id chid rest
        { s with users := Assoc.insert s.users user_id { user_state with channels := setInsert user_state.channels chid } }
    | none =>
      if user_id ≠ self_id then none
      else who_link self_id chid rest s

/-- `State::on_who`: unknown channel is ignored; a channel with members is
    only validated; a channel with zero tracked members is populated from
    the roster records. -/
def on_who (s : State) (who : WhoSuccess) : Option State :=
  let channel_name := IrcIdentifier.from_str who.channel
  match get_channel_by_name s channel_name with
  | none => none
  | some none => some s
  | some (some (chan_id, channel)) =>
    if channel.users ≠ [] then
      match validate_state_with_who s who with
      | some _ => some s
      | none => none
    else
      let c := who_collect s.user_map s.user_seq who.who_records
      match insert_users c.2.1 { s with user_seq := c.1 } with
      | none => none
      | some s2 =>
        match who_link s.self_id chan_id c.2.2 s2 with
        | none => none
        | some s3 =>
          let r := update_channel_by_name s3 channel_name
            (fun ch => { ch with users := c.2.2.foldl setInsert ch.users })
          if r.2 then some r.1 else none

/-- `State::on_topic`: overwrite the topic; `assert!` makes an unknown
    channel a hard failure. -/
def on_topic (s : State) (channel body : List Nat) : Option State :=
  let r := update_channel_by_name s channel (fun ch => ch.set_topic body)
  if r.2 then some r.1 else none

/-- `State::on_nick`: rewrite the user's prefix with the new nick (which
    re-keys the index inside `update_user`); `assert!` makes an unknown
    user a hard failure. -/
def on_nick (s : State) (old_nick new_nick : List Nat) : Option State :=
  match update_user_by_nick s old_nick (fun u => u.set_nick new_nick) with
  | some (s2, true) => some s2
  | some (_, false) => none
  | none => none

/-- `State::on_kick`: soft failure (state unchanged) when the channel, the
    kicked nick, or both are unknown; otherwise unlink the edge. -/
def on_kick (s : State) (channel kicked_nick : List Nat) : Option State :=
  let channel_name := IrcIdentifier.from_str channel
  let kicked_user_nick := IrcIdentifier.from_str kicked_nick
  match Assoc.find s.channel_map channel_name, Assoc.find s.user_map kicked_user_nick with
  | some chan_id, some user_id => unlink_user_channel s user_id chan_id
  | none, some _ => some s
  | some _, none => some s
  | none, none => some s

/-- `State::set_self_nick`: re-key the user index from the old normalized
    nick to the new one (when an identity was already established) and
    store the new raw nick; `none` models the `panic!` on an inconsistent
    user index.  The stored self `User` entity is not touched. -/
def set_self_nick (s : State) (new_nick_str : List Nat) : Option State :=
  let new_nick := IrcIdentifier.from_str new_nick_str
  let old_nick := IrcIdentifier.from_str s.self_nick
  if s.self_nick ≠ [] then
    match Assoc.find s.user_map old_nick with
    | none => none
    | some user_id =>
      some { s with
        user_map := Assoc.insert (Assoc.erase s.user_map old_nick) new_nick user_id
        self_nick := new_nick_str }
  else
    some { s with self_nick := new_nick_str }

/-- `State::initialize_self_nick`: index the nick, create the self `User`
    entity with the synthetic `nick!someone@somewhere` prefix and an empty
    channel set, then run `set_self_nick`. -/
def initialize_self_nick (s : State) (new_nick_str : List Nat) : Option State :=
  let new_nick := IrcIdentifier.from_str new_nick_str
  let s1 := { s with
    user_map := Assoc.insert s.user_map new_nick s.self_id
    users := Assoc.insert s.users s.self_id
      { id := s.self_id
        prefix_ := new_nick_str ++ strN ("!someone@somewhere")
        channels := [] } }
  set_self_nick s1 new_nick_str

/-- The decoded shape of an incoming message (the crate's
    `IncomingMsg::from_msg` is an external collaborator; the decoded
    variants carry the fields the handlers read).  `numeric` covers every
    command that is not one of the six handled kinds. -/
inductive MsgBody where
  | part (channel : List Nat)
  | quit
  | join (channel : List Nat)
  | topic (channel : List Nat) (body : List Nat)
  | nickChange (new_nick : List Nat)
  | kick (channel : List Nat) (kicked_nick : List Nat)
  | numeric (command : List Nat) (params : List (List Nat))
deriving DecidableEq

/-- An incoming `IrcMsg`: its originator prefix plus the decoded body. -/
structure IrcMsg where
  prefix_ : List Nat
  body : MsgBody
deriving DecidableEq

/-- `State::on_message`: dispatch on the decoded kind and on whether the
    prefix nick equals (by plain string equality) the session's own nick.
    The `part`/`quit`/`join`/`nickChange` handlers read the actor nick
    from the prefix; a message of those kinds without a nicked prefix
    panics in the crate accessors (modelled as `none`).  Kinds that fall
    through the match are handled only if the command is the numeric 001,
    which (re-)initializes the session identity from the first parameter
    (indexing `msg[0]` panics when there is none). -/
def on_message (s : State) (msg : IrcMsg) : Option State :=
  let is_self : Bool :=
    match prefix_nick msg.prefix_ with
    | some nick => decide (nick = s.self_nick)
    | none => false
  match msg.body, is_self with
  | MsgBody.part channel, true => on_self_part s channel
  | MsgBody.part channel, false =>
    match prefix_nick msg.prefix_ with
    | some nick => on_other_part s channel nick
    | none => none
  | MsgBody.quit, false =>
    match prefix_nick msg.prefix_ with
    | some nick => on_other_quit s nick
    | none => none
  | MsgBody.quit, true => some s
  | MsgBody.join channel, false =>
    match prefix_nick msg.prefix_ with
    | some nick => on_other_join s channel nick msg.prefix_
    | none => none
  | MsgBody.join _, true => some s
  | MsgBody.topic channel body, _ => on_topic s channel body
  | MsgBody.nickChange new_nick, _ =>
    match prefix_nick msg.prefix_ with
    | some nick => on_nick s nick new_nick
    | none => none
  | MsgBody.kick channel kicked_nick, _ => on_kick s channel kicked_nick
  | MsgBody.numeric command params, _ =>
    if command = strN ("001") then
      match params with
      | p0 :: _ => initialize_self_nick s p0
      | [] => none
    else some s

/-- `IrcEvent`: the typed event union delivered to `on_event`. -/
inductive IrcEvent where
  | ircMsg (msg : IrcMsg)
  | joinBundleOk (join : JoinSuccess)
  | joinBundleErr
  | whoBundleOk (who : WhoSuccess)
  | whoBundleErr
  | extension
deriving DecidableEq

/-- `State::on_event`: the sole mutation entry point; failed bundles are
    ignored and an extension event is `unimplemented!()` (a hard
    failure). -/
def on_event (s : State) (event : IrcEvent) : Option State :=
  match event with
  | IrcEvent.ircMsg msg => on_message s msg
  | IrcEvent.joinBundleOk join => some (on_self_join s join)
  | IrcEvent.joinBundleErr => some s
  | IrcEvent.whoBundleOk who => on_who s who
  | IrcEvent.whoBundleErr => some s
  | IrcEvent.extension => none

/-- Run a sequence of events, propagating hard failures. -/
def run_events (s : State) : List IrcEvent → Option State
  | [] => some s
  | e :: rest =>
    match on_event s e with
    | some s2 => run_events s2 rest
    | none => none

/-- `State::identify_channel`. -/
def identify_channel (s : State) (chan : List Nat) : Option ChannelId :=
  Assoc.find s.channel_map (IrcIdentifier.from_str chan)

/-- `State::identify_nick`. -/
def identify_nick (s : State) (nick : List Nat) : Option UserId :=
  Assoc.find s.user_map (IrcIdentifier.from_str nick)

/-- `State::resolve_channel`. -/
def resolve_channel (s : State) (chid : ChannelId) : Option Channel :=
  Assoc.find s.channels chid

/-- `State::resolve_user`. -/
def resolve_user (s : State) (uid : UserId) : Option User :=
  Assoc.find s.users uid

/-- `State::get_self_nick`. -/
def get_self_nick (s : State) : List Nat :=
  s.self_nick

/-- The states reachable from `State::new` through the public mutation
    operations (`on_event`, which subsumes `on_message`, and
    `set_self_nick`) that complete without a hard failure. -/
inductive Reachable : State → Prop where
  | init : Reachable State.new
  | step (s s' : State) (e : IrcEvent) :
      Reachable s → on_event s e = some s' → Reachable s'
  | set_nick (s s' : State) (n : List Nat) :
      Reachable s → set_self_nick s n = some s' → Reachable s'

/-- A 001 welcome message carrying the nick alice. -/
def msg001 : IrcMsg :=
  { prefix_ := strN ("irc.example.net")
    body := MsgBody.numeric (strN ("001")) [strN ("alice")] }

/-- A join-success bundle for the channel named hash-foo with no topic. -/
def joinFoo : JoinSuccess :=
  { channel := strN ("#foo"), topic := none, nicks := [] }

/-- A roster record for alice. -/
def aliceRec : WhoRecord :=
  { nick := strN ("alice"), prefix_ := strN ("alice!au@ahost") }

/-- A roster record for bob. -/
def bobRec : WhoRecord :=
  { nick := strN ("bob"), prefix_ := strN ("bob!bu@bhost") }

/-- A roster response for the channel listing alice only. -/
def whoFooAlice : WhoSuccess :=
  { channel := strN ("#foo"), who_records := [aliceRec] }

/-- A roster response for the channel listing alice and bob. -/
def whoFooAliceBob : WhoSuccess :=
  { channel := strN ("#foo"), who_records := [aliceRec, bobRec] }

/-- A roster response for the channel listing bob only. -/
def whoFooBob : WhoSuccess :=
  { channel := strN ("#foo"), who_records := [bobRec] }

/-- A part message for the channel originated by alice (the session's own
    identity in the traces below). -/
def partFooSelf : IrcMsg :=
  { prefix_ := strN ("alice!au@ahost"), body := MsgBody.part (strN ("#foo")) }

/-- A kick message naming alice as the kicked user. -/
def kickSelfMsg : IrcMsg :=
  { prefix_ := strN ("op!ou@ohost"), body := MsgBody.kick (strN ("#foo")) (strN ("alice")) }

/-- Establish identity, self-join the channel, populate it from a roster
    listing the self-user, then process a second 001 welcome. -/
def c1_trace : List IrcEvent :=
  [IrcEvent.ircMsg msg001, IrcEvent.joinBundleOk joinFoo,
   IrcEvent.whoBundleOk whoFooAlice, IrcEvent.ircMsg msg001]

/-- Establish identity, self-join the channel, populate it with alice and
    bob from a roster. -/
def c2_pre : List IrcEvent :=
  [IrcEvent.ircMsg msg001, IrcEvent.joinBundleOk joinFoo,
   IrcEvent.whoBundleOk whoFooAliceBob]

/-- Establish identity, self-join the channel, populate it with bob only. -/
def c3_pre : List IrcEvent :=
  [IrcEvent.ircMsg msg001, IrcEvent.joinBundleOk joinFoo,
   IrcEvent.whoBundleOk whoFooBob]

/-- Establish identity, self-join the channel, populate it with the
    self-user as its only member. -/
def c4_pre : List IrcEvent :=
  [IrcEvent.ircMsg msg001, IrcEvent.joinBundleOk joinFoo,
   IrcEvent.whoBundleOk whoFooAlice]

/-- The self `User` entity created by identity establishment as alice. -/
def aliceUser : User :=
  { id := UserId.mk 0
    prefix_ := strN ("alice!someone@somewhere")
    channels := [] }

/-- The `User` entity created for bob from `bobRec` by roster population,
    linked into the channel with id 0. -/
def bobUser : User :=
  { id := UserId.mk 1
    prefix_ := strN ("bob!bu@bhost")
    channels := [ChannelId.mk 0] }

/-- The channel entity with bob as its only member. -/
def chanFooBob : Channel :=
  { id := ChannelId.mk 0
    name := strN ("#foo")
    topic := []
    users := [UserId.mk 1] }

/-- The state right after identity establishment as alice (it is exactly
    `run_events State.new [IrcEvent.ircMsg msg001]`). -/
def stateAlice : State :=
  { user_seq := 1
    channel_seq := 0
    self_nick := strN ("alice")
    self_id := UserId.mk 0
    user_map := [(strN ("alice"), UserId.mk 0)]
    users := [(UserId.mk 0, aliceUser)]
    channel_map := []
    channels := []
    generation := 0 }

/-- A part message for an untracked channel whose prefix nick differs from
    the session nick alice only in letter case. -/
def partFooUpper : IrcMsg :=
  { prefix_ := strN ("Alice!au@ahost"), body := MsgBody.part (strN ("#foo")) }

/-- The same part message with the prefix nick in the session's exact
    case. -/
def partFooLower : IrcMsg :=
  { prefix_ := strN ("alice!au@ahost"), body := MsgBody.part (strN ("#foo")) }

/-- The state after identity establishment as alice and a self-join of the
    channel (it is exactly `run_events State.new
    [IrcEvent.ircMsg msg001, IrcEvent.joinBundleOk joinFoo]`). -/
def stateAliceFoo : State :=
  { user_seq := 1
    channel_seq := 1
    self_nick := strN ("alice")
    self_id := UserId.mk 0
    user_map := [(strN ("alice"), UserId.mk 0)]
    users := [(UserId.mk 0, aliceUser)]
    channel_map := [(strN ("#foo"), ChannelId.mk 0)]
    channels := [(ChannelId.mk 0,
      { id := ChannelId.mk 0
        name := strN ("#foo")
        topic := []
        users := [] })]
    generation := 0 }

/-- The state in which bob is the only member of the channel and the
    channel is bob's only channel (it is exactly
    `run_events State.new c3_pre`). -/
def stateFooBob : State :=
  { user_seq := 2
    channel_seq := 1
    self_nick := strN ("alice")
    self_id := UserId.mk 0
    user_map := [(strN ("bob"), UserId.mk 1), (strN ("alice"), UserId.mk 0)]
    users := [(UserId.mk 1, bobUser), (UserId.mk 0, aliceUser)]
    channel_map := [(strN ("#foo"), ChannelId.mk 0)]
    channels := [(ChannelId.mk 0, chanFooBob)]
    generation := 0 }

/-- The spec's invariant 1 (symmetric membership), as a boolean check. -/
def sym_membership (s : State) : Bool :=
  (s.channels.all fun p =>
    p.2.users.all fun user_id =>
      match Assoc.find s.users user_id with
      | some user_state => user_state.channels.contains p.1
      | none => false) &&
  (s.users.all fun p =>
    p.2.channels.all fun chan_id =>
      match Assoc.find s.channels chan_id with
      | some chan_state => chan_state.users.contains p.1
      | none => false)

theorem Assoc.find_erase {α β : Type} [DecidableEq α] (m : Assoc α β) (k k' : α) :
    Assoc.find (Assoc.erase m k) k' = if k' = k then none else Assoc.find m k' := by
  induction m with
  | nil => simp [Assoc.erase, Assoc.find]
  | cons p rest ih =>
    by_cases hpk : p.1 = k
    · have he : Assoc.erase (p :: rest) k = Assoc.erase rest k := by simp [Assoc.erase, hpk]
      rw [he, ih]
      by_cases hk : k' = k
      · simp [hk]
      · have hpk' : ¬ p.1 = k' := fun hh => hk (hh.symm.trans hpk)
        simp [Assoc.find, hk, hpk']
    · have he : Assoc.erase (p :: rest) k = p :: Assoc.erase rest k := by
        simp [Assoc.erase, hpk]
      rw [he]
      simp only [Assoc.find]
      by_cases hpk' : p.1 = k'
      · have hk : ¬ k' = k := fun hh => hpk (hpk'.trans hh)
        simp [hpk', hk]
      · simp [hpk', ih]

theorem Assoc.find_insert {α β : Type} [DecidableEq α] (m : Assoc α β) (k : α) (v : β) (k' : α) :
    Assoc.find (Assoc.insert m k v) k' = if k' = k then some v else Assoc.find m k' := by
  unfold Assoc.insert
  simp only [Assoc.find]
  by_cases h : k' = k
  · simp [h]
  · have h2 : ¬ k = k' := fun hh => h hh.symm
    simp [h, h2, Assoc.find_erase]

theorem Assoc.find_insert_self {α β : Type} [DecidableEq α] (m : Assoc α β) (k : α) (v : β) :
    Assoc.find (Assoc.insert m k v) k = some v := by
  simp [Assoc.find_insert]

theorem Assoc.find_erase_self {α β : Type} [DecidableEq α] (m : Assoc α β) (k : α) :
    Assoc.find (Assoc.erase m k) k = none := by
  simp [Assoc.find_erase]

theorem irc_lower_idem (c : Nat) : irc_lower (irc_lower c) = irc_lower c := by
  unfold irc_lower
  split_ifs <;> omega

theorem irc_lower_eq_hash_iff (c : Nat) : irc_lower c = 35 ↔ c = 35 := by
  unfold irc_lower
  split_ifs <;> omega

theorem map_irc_lower_idem (l : List Nat) :
    (l.map irc_lower).map irc_lower = l.map irc_lower := by
  induction l with
  | nil => rfl
  | cons c rest ih => simp [ih, irc_lower_idem]

theorem dropWhile_hash (l : List Nat) (h : 35 ∈ l) :
    ∃ t, l.dropWhile (fun c => decide (c ≠ 35)) = 35 :: t := by
  induction l with
  | nil => cases h
  | cons c rest ih =>
    by_cases hc : c = 35
    · subst hc
      exact ⟨rest, by simp [List.dropWhile_cons]⟩
    · have hmem : 35 ∈ rest := by
        rcases List.mem_cons.mp h with h1 | h2
        · exact absurd h1.symm hc
        · exact h2
      rcases ih hmem with ⟨t, ht⟩
      refine ⟨t, ?_⟩
      rw [List.dropWhile_cons, if_pos (by simp [hc]), ht]

/-- The normalizer contract stated in the spec: `normalize` is idempotent. -/
theorem from_str_idem (val : List Nat) :
    IrcIdentifier.from_str (IrcIdentifier.from_str val) = IrcIdentifier.from_str val := by
  unfold IrcIdentifier.from_str
  unfold channel_deprefix_
  by_cases h : 35 ∈ val
  · rcases dropWhile_hash val h with ⟨t, ht⟩
    rw [if_pos h, ht]
    simp only [List.map_cons]
    have h35 : irc_lower 35 = 35 := by decide
    rw [h35]
    have hmem : (35 : Nat) ∈ 35 :: t.map irc_lower := List.mem_cons_self _ _
    rw [if_pos hmem]
    have hd : (35 :: t.map irc_lower).dropWhile (fun c => decide (c ≠ 35)) =
        35 :: t.map irc_lower := by
      simp [List.dropWhile_cons]
    rw [hd, List.map_cons, h35, map_irc_lower_idem]
  · rw [if_neg h]
    by_cases h2 : 35 ∈ val.map irc_lower
    · exfalso
      rcases List.mem_map.mp h2 with ⟨c, hc, hlow⟩
      exact h ((irc_lower_eq_hash_iff c).mp hlow ▸ hc)
    · rw [if_neg h2, map_irc_lower_idem]

theorem reachable_run_events (es : List IrcEvent) :
    ∀ (s s' : State), Reachable s → run_events s es = some s' → Reachable s' := by
  induction es with
  | nil =>
    intro s s' h hr
    simp only [run_events] at hr
    cases hr
    exact h
  | cons e rest ih =>
    intro s s' h hr
    simp only [run_events] at hr
    cases he : on_event s e with
    | none => rw [he] at hr; cases hr
    | some s2 =>
      rw [he] at hr
      exact ih s2 s' (Reachable.step s s2 e h he) hr

/-- C1: symmetric membership is claimed to hold in every state reachable
    from `State::new` by public operations.  It does not: re-processing a
    001 welcome after the self-user has been linked into a channel
    re-creates the self `User` entity with an empty channel set while the
    channel still lists it, producing a reachable state that violates
    symmetric membership and is rejected by the code's own
    `validate_state_internal`. -/
theorem c1_welcome_reinit_breaks_symmetry :
    ∃ s, run_events State.new c1_trace = some s ∧ Reachable s ∧
      sym_membership s = false ∧ validate_state_internal s = false := by
  refine ⟨_, rfl, ?_, by decide, by decide⟩
  exact reachable_run_events c1_trace State.new _ Reachable.init rfl

/-- C7: processing a join-succeeded bundle whose normalized channel name is
    already indexed leaves the entire state unchanged. -/
theorem c7_self_join_idempotent (s : State) (join : JoinSuccess) (cid : ChannelId)
    (h : Assoc.find s.channel_map (IrcIdentifier.from_str join.channel) = some cid) :
    on_self_join s join = s := by
  simp only [on_self_join, h]

/-- C7 witness: re-applying the join-success bundle for the already-joined
    channel is a no-op. -/
theorem c7_self_join_idempotent_witness :
    Assoc.find stateAliceFoo.channel_map (IrcIdentifier.from_str joinFoo.channel) =
      some (ChannelId.mk 0) ∧
    on_self_join stateAliceFoo joinFoo = stateAliceFoo :=
  ⟨rfl, c7_self_join_idempotent stateAliceFoo joinFoo (ChannelId.mk 0) rfl⟩

/-- C8: a part event from a non-self actor and a kick event whose named
    channel, named user, or both are absent from the corresponding
    canonical index are soft failures: the handlers return the state
    completely unchanged. -/
theorem c8_soft_failures_preserve_state (s : State) (channel nick : List Nat)
    (h : Assoc.find s.channel_map (IrcIdentifier.from_str channel) = none ∨
         Assoc.find s.user_map (IrcIdentifier.from_str nick) = none) :
    on_other_part s channel nick = some s ∧ on_kick s channel nick = some s := by
  rcases h with h | h
  · cases hu : Assoc.find s.user_map (IrcIdentifier.from_str nick) <;>
      simp [on_other_part, on_kick, h, hu]
  · cases hc : Assoc.find s.channel_map (IrcIdentifier.from_str channel) <;>
      simp [on_other_part, on_kick, h, hc]

/-- C8 witness: a part and a kick referencing the untracked channel named
    hash-bar leave the established state untouched. -/
theorem c8_soft_failures_preserve_state_witness :
    Assoc.find stateAlice.channel_map (IrcIdentifier.from_str (strN ("#bar"))) = none ∧
    on_other_part stateAlice (strN ("#bar")) (strN ("alice")) = some stateAlice ∧
    on_kick stateAlice (strN ("#bar")) (strN ("alice")) = some stateAlice :=
  ⟨rfl,
   (c8_soft_failures_preserve_state stateAlice (strN ("#bar")) (strN ("alice")) (Or.inl rfl)).1,
   (c8_soft_failures_preserve_state stateAlice (strN ("#bar")) (strN ("alice")) (Or.inl rfl)).2⟩

/-- C10: a join-succeeded bundle for an untracked channel name creates the
    channel with an empty member set and does not touch the user table, so
    the self-user acquires no edge to the new channel id. -/
theorem c10_self_join_creates_unlinked_empty_channel (s : State) (join : JoinSuccess)
    (h : Assoc.find s.channel_map (IrcIdentifier.from_str join.channel) = none) :
    ∃ ch, Assoc.find (on_self_join s join).channels (ChannelId.mk s.channel_seq) = some ch ∧
      ch.users = [] ∧
      (on_self_join s join).users = s.users ∧
      (∀ u, Assoc.find s.users s.self_id = some u →
        ChannelId.mk s.channel_seq ∉ u.channels →
        ∃ u2, Assoc.find (on_self_join s join).users s.self_id = some u2 ∧
          ChannelId.mk s.channel_seq ∉ u2.channels) := by
  simp only [on_self_join, h]
  refine ⟨_, Assoc.find_insert_self _ _ _, rfl, trivial, ?_⟩
  intro u hu hnotin
  exact ⟨u, hu, hnotin⟩

/-- C10 witness: self-joining the channel from the identity-only state
    yields a channel with zero members and an unchanged user table. -/
theorem c10_self_join_creates_unlinked_empty_channel_witness :
    Assoc.find stateAlice.channel_map (IrcIdentifier.from_str joinFoo.channel) = none ∧
    (∃ ch, Assoc.find (on_self_join stateAlice joinFoo).channels
        (ChannelId.mk stateAlice.channel_seq) = some ch ∧
      ch.users = [] ∧
      (on_self_join stateAlice joinFoo).users = stateAlice.users ∧
      (∀ u, Assoc.find stateAlice.users stateAlice.self_id = some u →
        ChannelId.mk stateAlice.channel_seq ∉ u.channels →
        ∃ u2, Assoc.find (on_self_join stateAlice joinFoo).users stateAlice.self_id = some u2 ∧
          ChannelId.mk stateAlice.channel_seq ∉ u2.channels)) :=
  ⟨rfl, c10_self_join_creates_unlinked_empty_channel stateAlice joinFoo rfl⟩

/-- C4: the self-user is claimed to survive every operation, in particular
    an unlink that removes its last channel edge.  It does not: the
    cascade in `unlink_user_channel` has no self guard and funnels into
    `remove_user_by_id`, whose `panic!("Tried to remove self")` makes a
    kick of the self-user from its only tracked channel a hard failure
    instead of a completing operation. -/
theorem c4_self_kick_hard_fails :
    ∃ s u, run_events State.new c4_pre = some s ∧ Reachable s ∧
      s.self_id = UserId.mk 0 ∧
      Assoc.find s.users s.self_id = some u ∧
      u.channels = [ChannelId.mk 0] ∧
      identify_channel s (strN ("#foo")) = some (ChannelId.mk 0) ∧
      unlink_user_channel s s.self_id (ChannelId.mk 0) = none ∧
      on_message s kickSelfMsg = none ∧
      run_events State.new (c4_pre ++ [IrcEvent.ircMsg kickSelfMsg]) = none := by
  refine ⟨_, _, rfl, ?_, by decide, rfl, by decide, by decide, by decide, by decide, by decide⟩
  exact reachable_run_events c4_pre State.new _ Reachable.init rfl

/-- C6: `set_self_nick` is claimed to act exactly like a nick change and
    keep index correctness.  It does not: it re-keys the user index (the
    new nick resolves to the self id, the old one no longer resolves) but
    never rewrites the stored self `User` entity, whose nick still
    normalizes to the old name, so the code's own
    `validate_state_internal` rejects the state — while an actual nick
    change through `on_nick` on the same state keeps it valid. -/
theorem c6_set_self_nick_leaves_entity_stale :
    ∃ s2 u s3,
      set_self_nick stateAlice (strN ("bob")) = some s2 ∧
      identify_nick s2 (strN ("bob")) = some (UserId.mk 0) ∧
      identify_nick s2 (strN ("alice")) = none ∧
      s2.self_id = UserId.mk 0 ∧
      Assoc.find s2.users (UserId.mk 0) = some u ∧
      IrcIdentifier.from_str u.get_nick = strN ("alice") ∧
      IrcIdentifier.from_str u.get_nick ≠ IrcIdentifier.from_str (strN ("bob")) ∧
      validate_state_internal s2 = false ∧
      on_nick stateAlice (strN ("alice")) (strN ("bob")) = some s3 ∧
      validate_state_internal s3 = true := by
  refine ⟨_, _, _, rfl, by decide, by decide, rfl, rfl, by decide, by decide, by decide,
    rfl, by decide⟩

/-- C5 counterexample: the prefix nick Alice differs from the session nick
    alice only in letter case (their case-folded forms agree), yet the
    part message is dispatched to the other-scoped handler — it returns
    the state unchanged (soft no-op on the untracked channel), whereas the
    self-scoped part handler hard-fails on that channel, as the message
    with the exact-case prefix shows. -/
theorem c5_counterexample_folded_nick_not_self :
    IrcIdentifier.from_str (strN ("Alice")) = IrcIdentifier.from_str (strN ("alice")) ∧
    prefix_nick partFooUpper.prefix_ = some (strN ("Alice")) ∧
    stateAlice.self_nick = strN ("alice") ∧
    on_self_part stateAlice (strN ("#foo")) = none ∧
    on_message stateAlice partFooUpper = some stateAlice ∧
    on_message stateAlice partFooLower = none := by
  refine ⟨by decide, by decide, rfl, by decide, by decide, by decide⟩

/-- C5 (amended): the dispatcher compares the message's prefix nick with
    the session's own nick by exact string equality, with no case folding:
    a part message whose prefix nick differs from the session nick — even
    when only in letter case, i.e. with equal case-folded forms — is
    dispatched to the other-scoped part handler. -/
theorem c5_dispatch_compares_exact_nick (s : State) (msg : IrcMsg) (channel n : List Nat)
    (hbody : msg.body = MsgBody.part channel)
    (hnick : prefix_nick msg.prefix_ = some n)
    (hne : n ≠ s.self_nick)
    (_hfold : IrcIdentifier.from_str n = IrcIdentifier.from_str s.self_nick) :
    on_message s msg = on_other_part s channel n := by
  simp only [on_message, hbody, hnick, decide_eq_false hne]

/-- C5 witness: the case-differing part message from Alice is handled by
    the other-scoped part handler. -/
theorem c5_dispatch_compares_exact_nick_witness :
    prefix_nick partFooUpper.prefix_ = some (strN ("Alice")) ∧
    strN ("Alice") ≠ stateAlice.self_nick ∧
    IrcIdentifier.from_str (strN ("Alice")) = IrcIdentifier.from_str stateAlice.self_nick ∧
    on_message stateAlice partFooUpper = on_other_part stateAlice (strN ("#foo")) (strN ("Alice")) :=
  ⟨by decide, by decide, by decide,
   c5_dispatch_compares_exact_nick stateAlice partFooUpper (strN ("#foo")) (strN ("Alice"))
     rfl rfl (by decide) (by decide)⟩

theorem detach_channel_users_ok (id : ChannelId) (l : List UserId) :
    ∀ (s : State),
    (Assoc.find s.channels id).isSome = true →
    (∀ uid ∈ l, (Assoc.find s.users uid).isSome = true) →
    ∃ s2, detach_channel_users id l s = some s2 ∧
      s2.user_map = s.user_map ∧
      (∀ uid, (Assoc.find s2.users uid).isSome = (Assoc.find s.users uid).isSome) := by
  induction l with
  | nil =>
    intro s hch hus
    exact ⟨s, rfl, rfl, fun _ => rfl⟩
  | cons uid rest ih =>
    intro s hch hus
    rcases Option.isSome_iff_exists.mp hch with ⟨ch, hcheq⟩
    have husome := hus uid (List.mem_cons_self _ _)
    rcases Option.isSome_iff_exists.mp husome with ⟨u, hueq⟩
    have hch2 : (Assoc.find (Assoc.insert s.channels id { ch with users := setRemove ch.users uid }) id).isSome = true := by
      rw [Assoc.find_insert_self]
      rfl
    have hus2 : ∀ v ∈ rest,
        (Assoc.find (Assoc.insert s.users uid { u with channels := setRemove u.channels id }) v).isSome = true := by
      intro v hv
      rw [Assoc.find_insert]
      by_cases hveq : v = uid
      · simp [hveq]
      · simp only [hveq, if_false]
        exact hus v (List.mem_cons_of_mem _ hv)
    obtain ⟨s2, hrun, hum, hpres⟩ :=
      ih { s with
        channels := Assoc.insert s.channels id { ch with users := setRemove ch.users uid }
        users := Assoc.insert s.users uid { u with channels := setRemove u.channels id } }
        hch2 hus2
    refine ⟨s2, ?_, hum, ?_⟩
    · simp only [detach_channel_users, hcheq, hueq]
      exact hrun
    · intro v
      rw [hpres v]
      show (Assoc.find (Assoc.insert s.users uid { u with channels := setRemove u.channels id }) v).isSome
        = (Assoc.find s.users v).isSome
      rw [Assoc.find_insert]
      by_cases hveq : v = uid
      · subst hveq
        rw [if_pos rfl, hueq]
        rfl
      · rw [if_neg hveq]

/-- C2 counterexample: alice (self) and bob populate the channel, bob's
    only channel is this channel, and alice parts it; the claim predicts
    bob's entity is cascade-deleted and his nick no longer resolves, but
    the code keeps bob's entity (with an empty channel set) and
    `identify_nick` still returns his id. -/
theorem c2_counterexample_member_survives_self_part :
    ∃ s0 u s1,
      run_events State.new c2_pre = some s0 ∧
      Assoc.find s0.users (UserId.mk 1) = some u ∧
      u.get_nick = strN ("bob") ∧
      u.channels = [ChannelId.mk 0] ∧
      s0.self_id ≠ UserId.mk 1 ∧
      identify_channel s0 (strN ("#foo")) = some (ChannelId.mk 0) ∧
      on_message s0 partFooSelf = some s1 ∧
      identify_nick s1 (strN ("bob")) = some (UserId.mk 1) ∧
      (Assoc.find s1.users (UserId.mk 1)).isSome = true := by
  refine ⟨_, _, _, rfl, rfl, by decide, by decide, by decide, by decide, rfl, by decide,
    by decide⟩

/-- C2 (amended): a part event from the session's own identity naming a
    known channel removes the channel and detaches every member edge, but
    does not cascade-delete the now-dangling members: the user table keeps
    exactly the same entries (so a non-self user whose only channel was
    the parted one survives with an empty channel set), and the user index
    is untouched, so `identify_nick` still resolves every member's nick. -/
theorem c2_self_part_removes_channel_without_user_cascade
    (s : State) (raw : List Nat) (cid : ChannelId) (ch : Channel)
    (hmap : Assoc.find s.channel_map (IrcIdentifier.from_str raw) = some cid)
    (hch : Assoc.find s.channels cid = some ch)
    (husers : ∀ uid ∈ ch.users, (Assoc.find s.users uid).isSome = true) :
    ∃ s', on_self_part s raw = some s' ∧
      Assoc.find s'.channels cid = none ∧
      s'.user_map = s.user_map ∧
      (∀ uid, (Assoc.find s'.users uid).isSome = (Assoc.find s.users uid).isSome) ∧
      (∀ n, identify_nick s' n = identify_nick s n) := by
  obtain ⟨s2, hrun, hum, hpres⟩ :=
    detach_channel_users_ok cid ch.users s (by rw [hch]; rfl) husers
  refine ⟨{ s2 with
      channels := Assoc.erase s2.channels cid
      channel_map := Assoc.erase s2.channel_map (IrcIdentifier.from_str ch.name) },
    ?_, ?_, hum, hpres, ?_⟩
  · simp only [on_self_part, remove_channel_by_name, hmap, remove_channel_by_id, hch, hrun]
  · exact Assoc.find_erase_self _ _
  · intro n
    unfold identify_nick
    rw [show ({ s2 with
      channels := Assoc.erase s2.channels cid
      channel_map := Assoc.erase s2.channel_map (IrcIdentifier.from_str ch.name) } : State).user_map
      = s2.user_map from rfl, hum]

/-- C2 witness: parting the channel in which bob is the only member
    removes the channel but leaves the user table and user index intact. -/
theorem c2_self_part_removes_channel_without_user_cascade_witness :
    Assoc.find stateFooBob.channel_map (IrcIdentifier.from_str (strN ("#foo"))) =
      some (ChannelId.mk 0) ∧
    Assoc.find stateFooBob.channels (ChannelId.mk 0) = some chanFooBob ∧
    (∃ s', on_self_part stateFooBob (strN ("#foo")) = some s' ∧
      Assoc.find s'.channels (ChannelId.mk 0) = none ∧
      s'.user_map = stateFooBob.user_map ∧
      (∀ uid, (Assoc.find s'.users uid).isSome = (Assoc.find stateFooBob.users uid).isSome) ∧
      (∀ n, identify_nick s' n = identify_nick stateFooBob n)) :=
  ⟨rfl, rfl,
   c2_self_part_removes_channel_without_user_cascade stateFooBob (strN ("#foo"))
     (ChannelId.mk 0) chanFooBob rfl rfl (by decide)⟩

/-- C3 counterexample: bob and the channel are mutually linked, the
    channel is bob's only channel and bob its only member, and bob is not
    the self-user; the claim predicts unlinking deletes both entities, but
    the code deletes only the user — the channel survives with zero
    members and its name still resolves. -/
theorem c3_counterexample_channel_survives_unlink :
    ∃ s' ch',
      run_events State.new c3_pre = some stateFooBob ∧
      Assoc.find stateFooBob.users (UserId.mk 1) = some bobUser ∧
      bobUser.channels = [ChannelId.mk 0] ∧
      Assoc.find stateFooBob.channels (ChannelId.mk 0) = some chanFooBob ∧
      chanFooBob.users = [UserId.mk 1] ∧
      stateFooBob.self_id ≠ UserId.mk 1 ∧
      unlink_user_channel stateFooBob (UserId.mk 1) (ChannelId.mk 0) = some s' ∧
      Assoc.find s'.users (UserId.mk 1) = none ∧
      Assoc.find s'.channels (ChannelId.mk 0) = some ch' ∧
      ch'.users = [] ∧
      identify_channel s' (strN ("#foo")) = some (ChannelId.mk 0) := by
  refine ⟨_, _, by decide, rfl, rfl, rfl, rfl, by decide, rfl, by decide, rfl, by decide,
    by decide⟩

/-- C3 (amended): the two cascades of `unlink_user_channel` are not
    independent: when a non-self user and a channel are mutually linked,
    the user's only channel is that channel and the channel's only member
    is that user, the user cascade fires and `remove_user_by_id` detaches
    the edge from the channel before the channel check runs, so the
    channel cascade sees zero (not one) members and does not fire — the
    user entity and its index entry are deleted, while the channel entity
    survives with an empty member set. -/
theorem c3_user_cascade_preempts_channel_cascade
    (s : State) (uid : UserId) (chid : ChannelId) (u : User) (ch : Channel) (nk : List Nat)
    (hu : Assoc.find s.users uid = some u)
    (huc : u.channels = [chid])
    (hc : Assoc.find s.channels chid = some ch)
    (hcu : ch.users = [uid])
    (hself : s.self_id ≠ uid)
    (hnick : prefix_nick u.prefix_ = some nk)
    (hmap : (Assoc.find s.user_map (IrcIdentifier.from_str nk)).isSome = true) :
    ∃ s' ch', unlink_user_channel s uid chid = some s' ∧
      Assoc.find s'.users uid = none ∧
      Assoc.find s'.user_map (IrcIdentifier.from_str nk) = none ∧
      Assoc.find s'.channels chid = some ch' ∧
      ch'.users = [] := by
  have hdetach : detach_user_channels uid u.channels s = some { s with
      channels := Assoc.insert s.channels chid { ch with users := setRemove ch.users uid }
      users := Assoc.insert s.users uid { u with channels := setRemove u.channels chid } } := by
    rw [huc]
    simp only [detach_user_channels, hc, hu, huc]
  have hremove : remove_user_by_id s uid = some ({ s with
      channels := Assoc.insert s.channels chid { ch with users := setRemove ch.users uid }
      users := Assoc.erase (Assoc.insert s.users uid { u with channels := setRemove u.channels chid }) uid
      user_map := Assoc.erase s.user_map (IrcIdentifier.from_str nk) }, true) := by
    simp only [remove_user_by_id, if_neg hself, hu, hnick, hdetach, Assoc.find_insert_self,
      Option.isSome_some, if_true, hmap]
  have hrm : setRemove ch.users uid = [] := by
    rw [hcu]
    simp [setRemove]
  have hrm2 : setRemove ([] : List UserId) uid = [] := rfl
  have hcond1 : u.channels.length = 1 ∧ chid ∈ u.channels := by
    rw [huc]
    exact ⟨rfl, List.mem_cons_self _ _⟩
  simp only [unlink_user_channel, hu, if_pos hcond1, hremove, Option.map_some',
    Assoc.find_insert_self, hrm, hrm2, List.length_nil, List.not_mem_nil, false_and,
    and_false, if_false]
  refine ⟨_, { id := ch.id, name := ch.name, topic := ch.topic, users := [] },
    rfl, ?_, ?_, ?_, rfl⟩
  · exact Assoc.find_erase_self _ _
  · exact Assoc.find_erase_self _ _
  · exact Assoc.find_insert_self _ _ _

/-- C3 witness: unlinking bob from the channel that is his only channel
    and whose only member he is deletes bob but leaves the channel behind,
    empty. -/
theorem c3_user_cascade_preempts_channel_cascade_witness :
    Assoc.find stateFooBob.users (UserId.mk 1) = some bobUser ∧
    bobUser.channels = [ChannelId.mk 0] ∧
    Assoc.find stateFooBob.channels (ChannelId.mk 0) = some chanFooBob ∧
    chanFooBob.users = [UserId.mk 1] ∧
    stateFooBob.self_id ≠ UserId.mk 1 ∧
    (∃ s' ch', unlink_user_channel stateFooBob (UserId.mk 1) (ChannelId.mk 0) = some s' ∧
      Assoc.find s'.users (UserId.mk 1) = none ∧
      Assoc.find s'.user_map (IrcIdentifier.from_str (strN ("bob"))) = none ∧
      Assoc.find s'.channels (ChannelId.mk 0) = some ch' ∧
      ch'.users = []) :=
  ⟨rfl, rfl, rfl, rfl, by decide,
   c3_user_cascade_preempts_channel_cascade stateFooBob (UserId.mk 1) (ChannelId.mk 0)
     bobUser chanFooBob (strN ("bob")) rfl rfl rfl rfl (by decide) rfl rfl⟩

theorem collect_known_nicks_ok (s : State) : ∀ (l : List UserId),
    (∀ uid ∈ l, (Assoc.find s.users uid).isSome = true) →
    (collect_known_nicks s l).isSome = true := by
  intro l
  induction l with
  | nil => intro _; rfl
  | cons uid rest ih =>
    intro h
    rcases Option.isSome_iff_exists.mp (h uid (List.mem_cons_self _ _)) with ⟨u, hueq⟩
    rcases Option.isSome_iff_exists.mp (ih (fun v hv => h v (List.mem_cons_of_mem _ hv))) with
      ⟨lst, hleq⟩
    simp [collect_known_nicks, hueq, hleq]

/-- C9: a roster (WHO) success bundle naming a tracked channel whose
    tracked member set is non-empty is used only as a validation probe:
    processing it returns the state completely unchanged. -/
theorem c9_populated_roster_is_validation_only (s : State) (who : WhoSuccess)
    (cid : ChannelId) (ch : Channel)
    (h1 : get_channel_by_name s (IrcIdentifier.from_str who.channel) = some (some (cid, ch)))
    (h2 : ch.users ≠ [])
    (h3 : ∀ uid ∈ ch.users, (Assoc.find s.users uid).isSome = true) :
    on_who s who = some s := by
  have hval : validate_state_with_who s who = some () := by
    rcases Option.isSome_iff_exists.mp (collect_known_nicks_ok s ch.users h3) with ⟨lst, hleq⟩
    simp only [validate_state_with_who, h1, hleq]
  simp only [on_who, h1, if_pos h2, hval]

/-- C9 witness: a roster response for the channel already tracking bob as
    a member leaves the state untouched. -/
theorem c9_populated_roster_is_validation_only_witness :
    get_channel_by_name stateFooBob (IrcIdentifier.from_str whoFooBob.channel) =
      some (some (ChannelId.mk 0, chanFooBob)) ∧
    chanFooBob.users ≠ [] ∧
    on_who stateFooBob whoFooBob = some stateFooBob :=
  ⟨rfl, by decide,
   c9_populated_roster_is_validation_only stateFooBob whoFooBob (ChannelId.mk 0) chanFooBob
     rfl (by decide) (by decide)⟩

end IrcState
